import Mathlib

/-!
Verification of the generation-orchestration pipeline of the labor-law-bot
repository, shallowly embedded in Lean 4.

The embedding follows `src/claude_stages.py` (decoder, stage runners, fallback,
orchestrator), `src/app.py` (`generate_claim_text_from_ai`) and
`src/docx_generator_v2.py` (`_apply_gender_to_doc`).  Remote service responses
and the Python `json.loads` parser are external to the repository, so they are
modelled as explicit inputs: each remote call is an `Except Unit String`
(service error, or the raw response text) and the JSON parser is an abstract
function `String → Option α` supplied as a parameter.  Prompt construction is
absorbed into these abstract responses: the prompt text only influences what
the remote service answers, which is already an arbitrary input here.
Monetary amounts are modelled as integers (the Python code formats them with
`:,.0f`); the side effects of the orchestrator (client construction, remote
calls, progress callbacks) are made observable as an event trace.
-/

namespace LaborLawBot

/-- One document section of a stage payload: `{"header": ..., "paragraphs": [...]}`. -/
structure Section where
  header : String
  paragraphs : List String
deriving DecidableEq

/-- One appendix record: `{"number": ..., "description": ..., "reference_text": ...}`. -/
structure Appendix where
  number : Int
  description : String
  reference_text : String
deriving DecidableEq

/-- One entry of a payload's `calculations` list:
`{"component": ..., "formula": ..., "amount": ...}`. -/
structure CalcEntry where
  component : String
  formula : String
  amount : Int
deriving DecidableEq

/-- A Stage-2 (Drafter / Fallback) payload as read by the orchestrator.
Fields are `Option` because the parsed JSON object may lack any key;
the orchestrator reads them with `dict.get(key, default)`. -/
structure Payload where
  gender_form : Option String
  sections : Option (List Section)
  appendices : Option (List Appendix)
  calculations : Option (List CalcEntry)
  legal_citations : Option (List String)
  summary_total : Option Int
deriving DecidableEq

/-- A Stage-1 (Analyst) payload as read by the orchestrator. -/
structure Stage1 where
  sections_required : Option (List String)
  applicable_laws : Option (List String)
  appendices_detected : Option (List Appendix)
  flags : Option (List (String × Bool))
deriving DecidableEq

/-- The empty analysis substituted when Stage 1 fails
(`src/claude_stages.py` line 323). -/
def emptyStage1 : Stage1 :=
  { sections_required := some []
    applicable_laws := some []
    appendices_detected := some []
    flags := some [] }

/-- One authoritative claim calculation (an entry of `calculations["claims"]`). -/
structure ClaimCalc where
  name : String
  amount : Int
  formula : Option String
deriving DecidableEq

/-- The authoritative calculations map produced by the Benefit Calculator
(external to the pipeline): an insertion-ordered `claims` dict and a total. -/
structure Calculations where
  claims : List (String × ClaimCalc)
  total : Option Int
deriving DecidableEq

/-- The form data fields the pipeline reads: the gender marker and the twelve
claim-selection flags (`structured_data.get("claim_*")`). -/
structure StructuredData where
  gender : Option String
  claim_severance : Bool
  claim_prior_notice : Bool
  claim_unpaid_salary : Bool
  claim_overtime : Bool
  claim_pension : Bool
  claim_vacation : Bool
  claim_holidays : Bool
  claim_recuperation : Bool
  claim_salary_delay : Bool
  claim_emotional : Bool
  claim_deductions : Bool
  claim_documents : Bool
deriving DecidableEq

/-- `claim_keys` of `src/claude_stages.py` lines 306-319: the ordered mapping
from selection flags to Hebrew claim names. -/
def claim_keys (sd : StructuredData) : List (Bool × String) :=
  [ (sd.claim_severance, "פיצויי פיטורים")
  , (sd.claim_prior_notice, "חלף הודעה מוקדמת")
  , (sd.claim_unpaid_salary, "שכר עבודה שלא שולם")
  , (sd.claim_overtime, "הפרשי שכר – שעות נוספות")
  , (sd.claim_pension, "הפרשי הפרשות לפנסיה")
  , (sd.claim_vacation, "הפרשי דמי חופשה ופדיון חופשה")
  , (sd.claim_holidays, "דמי חגים והפרשי דמי חג")
  , (sd.claim_recuperation, "דמי הבראה")
  , (sd.claim_salary_delay, "פיצויי הלנת שכר")
  , (sd.claim_emotional, "פיצוי בגין עוגמת נפש")
  , (sd.claim_deductions, "ניכויים שלא כדין")
  , (sd.claim_documents, "מסירת מסמכי גמר חשבון") ]

/-- The twelve claim names, independent of any request. -/
def claimNames : List String :=
  [ "פיצויי פיטורים", "חלף הודעה מוקדמת", "שכר עבודה שלא שולם"
  , "הפרשי שכר – שעות נוספות", "הפרשי הפרשות לפנסיה"
  , "הפרשי דמי חופשה ופדיון חופשה", "דמי חגים והפרשי דמי חג", "דמי הבראה"
  , "פיצויי הלנת שכר", "פיצוי בגין עוגמת נפש", "ניכויים שלא כדין"
  , "מסירת מסמכי גמר חשבון" ]

/-- `selected_claims` of `src/claude_stages.py` line 320. -/
def selectedClaims (sd : StructuredData) : List String :=
  (claim_keys sd).filterMap (fun kv => if kv.1 then some kv.2 else none)

-- ── JSON parsing helpers (`src/claude_stages.py` lines 182-236, 446-459) ──

/-- Python's `str.strip()`: drop whitespace from both ends.  Defined over the
character list so that it evaluates by kernel reduction. -/
def pyStrip (s : String) : String :=
  String.mk (((s.toList.dropWhile Char.isWhitespace).reverse.dropWhile
    Char.isWhitespace).reverse)

/-- Python's `str.startswith`, over character lists. -/
def pyStartsWith (s pre : String) : Bool :=
  pre.toList.isPrefixOf s.toList

/-- Python's `str.endswith`, over character lists. -/
def pyEndsWith (s suf : String) : Bool :=
  suf.toList.isSuffixOf s.toList

/-- Python's `str.split("\n")`, over character lists. -/
def splitLines (s : String) : List String :=
  (s.toList.splitOn '\n').map String.mk

/-- Python's `"\n".join(...)`, over character lists. -/
def joinNL (ls : List String) : String :=
  String.mk (List.intercalate ['\n'] (ls.map String.toList))

/-- Substring containment on character lists (Python's `needle in haystack`). -/
def containsSub (hay needle : List Char) : Bool :=
  if needle.isPrefixOf hay then true
  else
    match hay with
    | [] => false
    | _ :: t => containsSub t needle

/-- The loop body of `_strip_markdown_fences`: walks the lines with the
`in_fence` flag, skipping the opening fence, stopping at the closing fence. -/
def stripFencesGo : List String → Bool → List String
  | [], _ => []
  | line :: rest, inFence =>
      if pyStartsWith (pyStrip line) "```" && !inFence then
        stripFencesGo rest true
      else if pyStrip line == "```" && inFence then
        []
      else if inFence then
        line :: stripFencesGo rest inFence
      else
        stripFencesGo rest inFence

/-- `_strip_markdown_fences` of `src/claude_stages.py` lines 446-459. -/
def _strip_markdown_fences (text : String) : String :=
  joinNL (stripFencesGo (splitLines text) false)

/-- The brace-depth loop of decode strategy 3 (`src/claude_stages.py` lines
210-219), started at the first opening brace: returns the number of characters
up to and including the structurally matching closing brace, or `none` when
the depth never returns to zero. -/
def findMatchingLen : List Char → Int → Option Nat
  | [], _ => none
  | c :: rest, count =>
      if c = '{' then (findMatchingLen rest (count + 1)).map (· + 1)
      else if c = '}' then
        if count - 1 = 0 then some 1
        else (findMatchingLen rest (count - 1)).map (· + 1)
      else (findMatchingLen rest count).map (· + 1)

/-- Index of the last occurrence of `c` (Python's `str.rfind`). -/
def lastIdxOf (cs : List Char) (c : Char) : Option Nat :=
  (cs.reverse.findIdx? (· = c)).map (fun r => cs.length - 1 - r)

/-- Decode strategy 1: direct whole-text parse. -/
def strat1 (parse : String → Option α) (text : String) : Option α :=
  parse text

/-- Decode strategy 2: strip a markdown fence and re-parse (attempted by the
source only when a fence marker occurs and the stripped text is nonempty). -/
def strat2 (parse : String → Option α) (text : String) : Option α :=
  if containsSub text.toList "```".toList then
    let stripped := _strip_markdown_fences text
    if stripped ≠ "" then parse stripped else none
  else none

/-- Decode strategy 3: substring from the first opening brace to its
structurally matching closing brace, found by brace-depth counting. -/
def strat3 (parse : String → Option α) (text : String) : Option α :=
  match text.toList.findIdx? (· = '{') with
  | none => none
  | some start =>
      match findMatchingLen (text.toList.drop start) 0 with
      | none => none
      | some len => parse (String.mk ((text.toList.drop start).take len))

/-- Decode strategy 4: substring from the first opening brace to the last
closing brace. -/
def strat4 (parse : String → Option α) (text : String) : Option α :=
  match text.toList.findIdx? (· = '{'), lastIdxOf text.toList '}' with
  | some f, some l =>
      if f < l then parse (String.mk ((text.toList.drop f).take (l + 1 - f)))
      else none
  | _, _ => none

/-- `_safe_parse_json` of `src/claude_stages.py` lines 182-236, after its
Python control flow: empty-text guard (`if not text`), then the four
strategies in order, each attempted only when the previous ones failed. -/
def _safe_parse_json (parse : String → Option α) (text : String) : Option α :=
  if text = "" then none
  else
    match strat1 parse text with
    | some v => some v
    | none =>
        match strat2 parse text with
        | some v => some v
        | none =>
            match strat3 parse text with
            | some v => some v
            | none => strat4 parse text

-- ── Fallback text wrapping (`src/claude_stages.py` lines 239-269) ──

/-- The section-building loop of `_build_fallback_from_text`: a line shorter
than 80 characters that ends neither in a period nor in a shekel sign starts a
new section (flushing the current one if it has paragraphs); any other line is
appended to the current section. -/
def buildSectionsGo : List String → List Section → Section → List Section
  | [], acc, current =>
      if current.paragraphs ≠ [] then acc ++ [current] else acc
  | para :: rest, acc, current =>
      if para.length < 80 && !(pyEndsWith para ".") && !(pyEndsWith para "₪") then
        let acc' := if current.paragraphs ≠ [] then acc ++ [current] else acc
        buildSectionsGo rest acc' { header := para, paragraphs := [] }
      else
        buildSectionsGo rest acc
          { current with paragraphs := current.paragraphs ++ [para] }

/-- `_build_fallback_from_text` of `src/claude_stages.py` lines 239-269:
wraps raw response text as a minimal valid payload. -/
def _build_fallback_from_text (raw_text : String) (structured_data : StructuredData)
    (calculations : Calculations) : Payload :=
  let paragraphs := ((splitLines raw_text).map pyStrip).filter (· ≠ "")
  let sections := buildSectionsGo paragraphs [] { header := "כתב תביעה", paragraphs := [] }
  let sections :=
    if sections = [] then [{ header := "כתב תביעה", paragraphs := paragraphs.take 50 }]
    else sections
  { gender_form := some (structured_data.gender.getD "male")
    sections := some sections
    appendices := some []
    calculations := some []
    legal_citations := some []
    summary_total := some (calculations.total.getD 0) }

-- ── Stage runners and orchestrator (`src/claude_stages.py` lines 42-443) ──

/-- `HARD_TIMEOUT` of `src/claude_stages.py` line 26, in seconds. -/
def HARD_TIMEOUT : Nat := 150

/-- An observable side effect of the orchestrator: constructing the service
client, performing a remote call, or invoking the progress callback. -/
inductive Event where
  | clientConstructed
  | remoteCall (stage : String)
  | onStage (stage : String) (msg : String)
deriving DecidableEq

/-- The orchestrator's only exceptional outcome: the `TimeoutError` raised by
`_check_timeout`, carrying the stage name it was checked at. -/
inductive PipeError where
  | timeout (stage : String)
deriving DecidableEq

/-- The environment of one pipeline invocation: the abstract JSON parsers and
the behaviour of the three possible remote calls, plus the wall-clock readings
at the points where the source consults `time.time()`.  `elapsed1` is the
elapsed time at the `_check_timeout("ניתוח")` boundary after Stage 1;
`totalElapsed` is the total at return. -/
structure PipelineEnv where
  parse1 : String → Option Stage1
  parse2 : String → Option Payload
  stage1Resp : Except Unit String
  stage2Resp : Except Unit String
  fallbackResp : Except Unit String
  elapsed1 : Nat
  totalElapsed : Nat

/-- `_run_stage1` of `src/claude_stages.py` lines 42-68: remote call, strip,
decode; raises (here: `.error`) on a service error or a full decode failure. -/
def _run_stage1 (parse1 : String → Option Stage1) (resp : Except Unit String) :
    Except Unit Stage1 :=
  match resp with
  | .error e => .error e
  | .ok raw =>
      match _safe_parse_json parse1 (pyStrip raw) with
      | none => .error ()
      | some p => .ok p

/-- `_run_stage2_streaming` of `src/claude_stages.py` lines 117-177: the
stream is consumed fully into one text (modelled as the response text), then
stripped and decoded; raises on a service error or a full decode failure. -/
def _run_stage2_streaming (parse2 : String → Option Payload)
    (resp : Except Unit String) : Except Unit Payload :=
  match resp with
  | .error e => .error e
  | .ok raw =>
      match _safe_parse_json parse2 (pyStrip raw) with
      | none => .error ()
      | some p => .ok p

/-- `_run_simple_fallback` of `src/claude_stages.py` lines 408-443: remote
call, strip, decode; on decode failure it wraps the raw text itself, so it
fails only when the remote call fails. -/
def _run_simple_fallback (parse2 : String → Option Payload)
    (resp : Except Unit String) (structured_data : StructuredData)
    (calculations : Calculations) : Except Unit Payload :=
  match resp with
  | .error e => .error e
  | .ok raw =>
      match _safe_parse_json parse2 (pyStrip raw) with
      | some p => .ok p
      | none => .ok (_build_fallback_from_text (pyStrip raw) structured_data calculations)

/-- The `stage_timing` record of the merged result. -/
structure StageTiming where
  total_seconds : Nat
  stages_completed : Nat
deriving DecidableEq

/-- The merged result returned by `generate_claim_multistage`. -/
structure MergedResult where
  gender_form : String
  sections : List Section
  appendices : List Appendix
  calculations : List CalcEntry
  legal_citations : List String
  summary_total : Int
  verification_notes : List String
  stage_timing : StageTiming
deriving DecidableEq

/-- The merge step of `generate_claim_multistage`
(`src/claude_stages.py` lines 393-405). -/
def mergeStages (stage2 : Payload) (stage1 : Stage1) (structured_data : StructuredData)
    (calculations : Calculations) (totalElapsed : Nat) : MergedResult :=
  { gender_form := stage2.gender_form.getD (structured_data.gender.getD "male")
    sections := stage2.sections.getD []
    appendices := stage2.appendices.getD [] ++ stage1.appendices_detected.getD []
    calculations := stage2.calculations.getD []
    legal_citations := stage2.legal_citations.getD []
    summary_total := calculations.total.getD 0
    verification_notes := []
    stage_timing := { total_seconds := totalElapsed, stages_completed := 2 } }

/-- The progress events emitted by one `if on_stage:` guard. -/
def stageEvents (hs : Bool) (stage : String) (msg : String) : List Event :=
  if hs then [Event.onStage stage msg] else []

/-- The `stage1` variable after the Analyst block of the orchestrator
(`src/claude_stages.py` lines 322-336): the decoded analysis on success, the
empty analysis on any failure. -/
def stage1Res (env : PipelineEnv) : Stage1 :=
  match _run_stage1 env.parse1 env.stage1Resp with
  | .ok p => p
  | .error _ => emptyStage1

/-- The `on_stage("done", ...)` message (`src/claude_stages.py` line 391). -/
def doneMsg (totalElapsed : Nat) : String :=
  "הושלם ב-" ++ toString totalElapsed ++ " שניות"

/-- `generate_claim_multistage` of `src/claude_stages.py` lines 274-405,
with its side effects recorded as an event trace.  `api_key` is `none` for a
missing argument and `some ""` for an empty one (both falsy in Python);
`hasOnStage` records whether a progress callback was supplied. -/
def generate_claim_multistage (env : PipelineEnv) (structured_data : StructuredData)
    (calculations : Calculations) (api_key : Option String) (hasOnStage : Bool) :
    Except PipeError (Option MergedResult) × List Event :=
  if api_key.getD "" = "" then (.ok none, [])
  else
    let ev1 : List Event :=
      [.clientConstructed]
        ++ stageEvents hasOnStage "analyzing" "מנתח עובדות..."
        ++ [.remoteCall "analyst"]
    let stage1 : Stage1 := stage1Res env
    if env.elapsed1 > HARD_TIMEOUT then
      (.error (.timeout "ניתוח"), ev1)
    else
      let ev2 : List Event :=
        ev1 ++ stageEvents hasOnStage "drafting" "מנסח סעיפים..."
          ++ [.remoteCall "drafter"]
      match _run_stage2_streaming env.parse2 env.stage2Resp with
      | .ok p2 =>
          (.ok (some (mergeStages p2 stage1 structured_data calculations env.totalElapsed)),
           ev2 ++ stageEvents hasOnStage "done" (doneMsg env.totalElapsed))
      | .error _ =>
          let ev3 : List Event :=
            ev2 ++ stageEvents hasOnStage "drafting" "ניסיון נוסף..."
              ++ [.remoteCall "fallback"]
          match _run_simple_fallback env.parse2 env.fallbackResp structured_data calculations with
          | .ok p2 =>
              (.ok (some (mergeStages p2 stage1 structured_data calculations env.totalElapsed)),
               ev3 ++ stageEvents hasOnStage "done" (doneMsg env.totalElapsed))
          | .error _ => (.ok none, ev3)

-- ── `generate_claim_text_from_ai` (`src/app.py` lines 1093-1160) ──

/-- Comma grouping of a reversed digit list: a comma after every three
digits, working from the least significant end. -/
def commaGroupRev : List Char → List Char
  | c1 :: c2 :: c3 :: c4 :: rest => c1 :: c2 :: c3 :: ',' :: commaGroupRev (c4 :: rest)
  | l => l

/-- Python's `f"{amount:,.0f}"` on an integral amount: decimal digits with
thousands separators. -/
def formatAmount (n : Int) : String :=
  (if n < 0 then "-" else "")
    ++ String.mk ((commaGroupRev (toString n.natAbs).toList.reverse).reverse)

/-- One per-claim summary line (`src/app.py` line 1133). -/
def claimLine (c : ClaimCalc) : String :=
  "• " ++ c.name ++ ": " ++ formatAmount c.amount ++ " ₪"

/-- The grand-total summary line (`src/app.py` line 1137). -/
def totalLine (total : Int) : String :=
  "סה\"כ סכום התביעה: " ++ formatAmount total
    ++ " ₪ קרן (לא כולל הצמדה וריבית, שכ\"ט עו\"ד והוצאות)"

/-- The closing paragraphs of `generate_claim_text_from_ai`
(`src/app.py` lines 1142-1158), depending only on the form data's gender. -/
def closingLines (data : StructuredData) : List String :=
  let gender := data.gender.getD "male"
  let pronoun := if gender = "male" then "התובע" else "התובעת"
  let g_obligate := if gender = "male" then "לחייבו" else "לחייבה"
  let g_his_rights := if gender = "male" then "זכויותיו" else "זכויותיה"
  [ "לאור ההפרות החמורות של " ++ g_his_rights ++ " של " ++ pronoun
      ++ " המתוארות בהרחבה בכתב תביעה זה, מתבקש בית הדין הנכבד להזמין את הנתבעת לדין, ו"
      ++ g_obligate
      ++ " במלוא סכום התביעה בצירוף הפרשי הצמדה וריבית לפי העניין מקום העילה ועד מועד התשלום בפועל כמו גם בסעדים ההצהרתיים המבוקשים."
  , "בנוסף, מתבקש בית הדין הנכבד לחייב את הנתבעת בתשלום הוצאות, שכ\"ט עו\"ד ומע\"מ בגינו."
  , "בית הדין הנכבד מוסמך לדון בתביעה זו לאור מהותה, סכומה, מקום ביצוע העבודה ומענה של הנתבעת." ]

/-- The line list built by `generate_claim_text_from_ai`
(`src/app.py` lines 1107-1158): title, the payload's sections, the summary
rendered from the authoritative calculations, and the closing paragraphs. -/
def claimTextLines (ai : Payload) (data : StructuredData) (calcs : Calculations) :
    List String :=
  let secLines := (ai.sections.getD []).flatMap (fun s =>
    (if s.header ≠ "" then [s.header] else []) ++ s.paragraphs.filter (· ≠ "") ++ [""])
  let claims := calcs.claims
  let total := calcs.total.getD 0
  let summary :=
    if claims ≠ [] then
      ["סיכום", "סיכום רכיבי התביעה:", ""]
        ++ claims.map (fun kc => claimLine kc.2) ++ ["", totalLine total, ""]
    else []
  ["כ ת ב    ת ב י ע ה", ""] ++ secLines ++ summary ++ closingLines data

/-- The part of the final text that comes from the stage payload: the title
and the payload's sections (`src/app.py` lines 1109-1121). -/
def bodyLines (ai : Payload) : List String :=
  ["כ ת ב    ת ב י ע ה", ""]
    ++ (ai.sections.getD []).flatMap (fun s =>
      (if s.header ≠ "" then [s.header] else []) ++ s.paragraphs.filter (· ≠ "") ++ [""])

/-- The part of the final text that does not read the stage payload at all:
the summary rendered from the authoritative calculations map plus the closing
paragraphs (`src/app.py` lines 1123-1158). -/
def summaryTailLines (data : StructuredData) (calcs : Calculations) : List String :=
  (if calcs.claims ≠ [] then
    ["סיכום", "סיכום רכיבי התביעה:", ""]
      ++ calcs.claims.map (fun kc => claimLine kc.2)
      ++ ["", totalLine (calcs.total.getD 0), ""]
   else []) ++ closingLines data

/-- `generate_claim_text_from_ai` of `src/app.py` lines 1093-1160. -/
def generate_claim_text_from_ai (ai : Payload) (data : StructuredData)
    (calcs : Calculations) : String :=
  joinNL (claimTextLines ai data calcs)

-- ── Gender normalization (`src/docx_generator_v2.py` lines 17, 827-839) ──

/-- One text run of the rendered document. -/
structure DocRun where
  text : String
deriving DecidableEq

/-- One paragraph of the rendered document. -/
structure DocPara where
  runs : List DocRun
deriving DecidableEq

/-- One table cell of the rendered document. -/
structure DocCell where
  paragraphs : List DocPara
deriving DecidableEq

/-- One table row of the rendered document. -/
structure DocRow where
  cells : List DocCell
deriving DecidableEq

/-- One table of the rendered document. -/
structure DocTable where
  rows : List DocRow
deriving DecidableEq

/-- The rendered document: body paragraphs and tables. -/
structure Doc where
  paragraphs : List DocPara
  tables : List DocTable
deriving DecidableEq

/-- Modelled from the spec: the substitution table of the Grammatical
Normalizer.  `fix_gender` is imported from `claude_stages` in
`src/docx_generator_v2.py` line 17 but its definition is not among the
provided sources; §4.5 of the spec describes it as an ordered substitution
table mapping gender-ambiguous tokens to the gender-specific form.  Each entry
is (ambiguous token, male form, female form). -/
def GENDER_TABLE : List (String × String × String) :=
  [ ("התובע/ת", "התובע", "התובעת")
  , ("עובד/ת", "עובד", "עובדת")
  , ("זכאי/ת", "זכאי", "זכאית")
  , ("טוען/ת", "טוען", "טוענת")
  , ("הועסק/ה", "הועסק", "הועסקה")
  , ("פוטר/ה", "פוטר", "פוטרה") ]

/-- Modelled from the spec: rewrite one whitespace-delimited token through the
substitution table; tokens not in the table are left unchanged. -/
def fixWord (gender : String) (w : List Char) : List Char :=
  match GENDER_TABLE.find? (fun e => e.1.toList == w) with
  | some e => (if gender = "female" then e.2.2 else e.2.1).toList
  | none => w

/-- Modelled from the spec: `fix_gender(text, gender)` — the Grammatical
Normalizer, absent from the provided sources (imported in
`src/docx_generator_v2.py` line 17).  Per §4.5 it is a pure ordered
substitution pass: here each space-delimited token is rewritten through
`GENDER_TABLE` and the text is reassembled. -/
def fix_gender (text : String) (gender : String) : String :=
  String.mk ([' '].intercalate ((text.toList.splitOn ' ').map (fixWord gender)))

/-- Normalize every run of a paragraph. -/
def applyGenderPara (gender : String) (p : DocPara) : DocPara :=
  { runs := p.runs.map (fun r => { text := fix_gender r.text gender }) }

/-- `_apply_gender_to_doc` of `src/docx_generator_v2.py` lines 827-839: one
post-process pass applying `fix_gender` to every run of every body paragraph
and of every paragraph of every table cell. -/
def _apply_gender_to_doc (doc : Doc) (gender : String) : Doc :=
  { paragraphs := doc.paragraphs.map (applyGenderPara gender)
    tables := doc.tables.map (fun t =>
      { rows := t.rows.map (fun row =>
        { cells := row.cells.map (fun c =>
          { paragraphs := c.paragraphs.map (applyGenderPara gender) }) }) }) }

-- ── Shared lemmas about the orchestrator ──

/-- On a present, nonempty API key, a passed budget check and a decodable
Drafter response, the orchestrator returns the merge of the Drafter payload. -/
theorem run_stage2_ok (env : PipelineEnv) (sd : StructuredData) (calcs : Calculations)
    (k : String) (hs : Bool) (hk : k ≠ "") (hB : ¬ env.elapsed1 > HARD_TIMEOUT)
    (p2 : Payload) (h2 : _run_stage2_streaming env.parse2 env.stage2Resp = .ok p2) :
    (generate_claim_multistage env sd calcs (some k) hs).1 =
      .ok (some (mergeStages p2 (stage1Res env) sd calcs env.totalElapsed)) := by
  unfold generate_claim_multistage
  simp only [Option.getD_some, if_neg hk, if_neg hB, h2]

/-- On a present, nonempty API key, a passed budget check, an undecodable
Drafter outcome and a fallback outcome, the orchestrator returns the merge of
the fallback payload (or `none` when the fallback itself failed). -/
theorem run_fallback (env : PipelineEnv) (sd : StructuredData) (calcs : Calculations)
    (k : String) (hs : Bool) (hk : k ≠ "") (hB : ¬ env.elapsed1 > HARD_TIMEOUT)
    (h2 : _run_stage2_streaming env.parse2 env.stage2Resp = .error ()) :
    (generate_claim_multistage env sd calcs (some k) hs).1 =
      match _run_simple_fallback env.parse2 env.fallbackResp sd calcs with
      | .ok p2 => .ok (some (mergeStages p2 (stage1Res env) sd calcs env.totalElapsed))
      | .error _ => .ok none := by
  unfold generate_claim_multistage
  simp only [Option.getD_some, if_neg hk, if_neg hB, h2]
  cases _run_simple_fallback env.parse2 env.fallbackResp sd calcs <;> rfl

/-- Every merged result the orchestrator can return is a `mergeStages` of some
payload with the Analyst result. -/
theorem run_ok_some_shape (env : PipelineEnv) (sd : StructuredData)
    (calcs : Calculations) (api_key : Option String) (hs : Bool) (m : MergedResult)
    (h : (generate_claim_multistage env sd calcs api_key hs).1 = .ok (some m)) :
    ∃ p2, m = mergeStages p2 (stage1Res env) sd calcs env.totalElapsed := by
  unfold generate_claim_multistage at h
  split at h
  · simp at h
  · split at h
    · simp at h
    · split at h
      · exact ⟨_, by simpa using h.symm⟩
      · split at h
        · exact ⟨_, by simpa using h.symm⟩
        · simp at h

-- ── Concrete sample inputs for witnesses and counterexamples ──

/-- A sample request selecting only the severance claim. -/
def sd0 : StructuredData :=
  { gender := none
    claim_severance := true
    claim_prior_notice := false
    claim_unpaid_salary := false
    claim_overtime := false
    claim_pension := false
    claim_vacation := false
    claim_holidays := false
    claim_recuperation := false
    claim_salary_delay := false
    claim_emotional := false
    claim_deductions := false
    claim_documents := false }

/-- A sample authoritative calculations map: one claim, total 25000. -/
def calcs0 : Calculations :=
  { claims := [("severance", { name := "פיצויי פיטורים", amount := 25000, formula := none })]
    total := some 25000 }

/-- A sample environment whose remote calls all return text nobody can parse. -/
def env0 : PipelineEnv :=
  { parse1 := fun _ => none
    parse2 := fun _ => none
    stage1Resp := .ok ""
    stage2Resp := .ok ""
    fallbackResp := .ok ""
    elapsed1 := 0
    totalElapsed := 0 }

/-- `env0` with the post-Analyst clock past the hard deadline. -/
def envTimeout : PipelineEnv :=
  { env0 with elapsed1 := 200 }

-- ── C10 ──

/-- Claim C10: if the API key argument is missing or empty,
`generate_claim_multistage` returns null immediately — no client construction,
no remote call, no progress callback (the event trace is empty) and no
exception (the outcome is `.ok`). -/
theorem claim10_missing_key (env : PipelineEnv) (sd : StructuredData)
    (calcs : Calculations) (api_key : Option String) (hs : Bool)
    (h : api_key = none ∨ api_key = some "") :
    generate_claim_multistage env sd calcs api_key hs = (.ok none, []) := by
  rcases h with rfl | rfl <;> rfl

/-- Witness for C10 at a concrete input. -/
theorem claim10_witness :
    generate_claim_multistage env0 sd0 calcs0 none false = (.ok none, []) :=
  claim10_missing_key env0 sd0 calcs0 none false (Or.inl rfl)

-- ── C4 ──

/-- Claim C4: the orchestrator never propagates an exception for
business-logic failures — for every environment (hence for every combination
of remote-call and decode failures at every stage) the outcome is `.ok`
(a merged result or null), and the only `.error` it can ever return is the
Timeout-kind failure carrying the stage name, produced exactly when the
elapsed time at the stage boundary exceeds the hard deadline. -/
theorem claim4_only_timeout (env : PipelineEnv) (sd : StructuredData)
    (calcs : Calculations) (api_key : Option String) (hs : Bool) :
    (∀ e, (generate_claim_multistage env sd calcs api_key hs).1 = .error e →
        e = .timeout "ניתוח" ∧ env.elapsed1 > HARD_TIMEOUT) ∧
    (env.elapsed1 ≤ HARD_TIMEOUT →
        ∃ r, (generate_claim_multistage env sd calcs api_key hs).1 = .ok r) := by
  constructor
  · intro e he
    unfold generate_claim_multistage at he
    split at he
    · exact absurd he (by simp)
    · split at he
      · rename_i hB
        exact ⟨by simpa using he.symm, hB⟩
      · split at he
        · simp at he
        · split at he <;> simp at he
  · intro hB
    unfold generate_claim_multistage
    split
    · exact ⟨none, rfl⟩
    · rw [if_neg (by omega)]
      split
      · exact ⟨_, rfl⟩
      · split
        · exact ⟨_, rfl⟩
        · exact ⟨none, rfl⟩

/-- Witness for C4: a concrete over-deadline run yields exactly the
Timeout-kind error, and a concrete in-budget run yields an `.ok` outcome. -/
theorem claim4_witness :
    (PipeError.timeout "ניתוח" = PipeError.timeout "ניתוח"
        ∧ envTimeout.elapsed1 > HARD_TIMEOUT) ∧
    (∃ r, (generate_claim_multistage env0 sd0 calcs0 (some "k") false).1 = .ok r) :=
  ⟨(claim4_only_timeout envTimeout sd0 calcs0 (some "k") false).1
      (.timeout "ניתוח") (by rfl),
   (claim4_only_timeout env0 sd0 calcs0 (some "k") false).2 (by decide)⟩

-- ── C3 ──

/-- The wrapped-raw-text payload always carries at least one section. -/
theorem build_fallback_sections_ne_nil (raw : String) (sd : StructuredData)
    (calcs : Calculations) :
    (_build_fallback_from_text raw sd calcs).sections.getD [] ≠ [] := by
  unfold _build_fallback_from_text
  dsimp only [Option.getD_some]
  split
  · simp
  · rename_i h
    simpa using h

/-- Claim C3: degrade-don't-drop.  If the Drafter's response text defeats all
decode strategies and the Fallback's response text does too, but the
Fallback's remote call itself succeeded, the pipeline still returns a non-null
result with at least one section; and the fallback runner returns a payload
(never null) whenever its remote call succeeded. -/
theorem claim3_degrade_dont_drop (env : PipelineEnv) (sd : StructuredData)
    (calcs : Calculations) (k : String) (hs : Bool) (hk : k ≠ "")
    (hB : env.elapsed1 ≤ HARD_TIMEOUT)
    (t2 : String) (h2 : env.stage2Resp = .ok t2)
    (h2p : _safe_parse_json env.parse2 (pyStrip t2) = none)
    (tf : String) (hf : env.fallbackResp = .ok tf)
    (hfp : _safe_parse_json env.parse2 (pyStrip tf) = none) :
    (∃ m, (generate_claim_multistage env sd calcs (some k) hs).1 = .ok (some m)
        ∧ m.sections ≠ []) ∧
    (∃ p, _run_simple_fallback env.parse2 env.fallbackResp sd calcs = .ok p) := by
  have hs2 : _run_stage2_streaming env.parse2 env.stage2Resp = .error () := by
    simp only [_run_stage2_streaming, h2, h2p]
  have hfb : _run_simple_fallback env.parse2 env.fallbackResp sd calcs =
      .ok (_build_fallback_from_text (pyStrip tf) sd calcs) := by
    simp only [_run_simple_fallback, hf, hfp]
  constructor
  · refine ⟨mergeStages (_build_fallback_from_text (pyStrip tf) sd calcs) (stage1Res env)
        sd calcs env.totalElapsed, ?_, ?_⟩
    · rw [run_fallback env sd calcs k hs hk (by omega) hs2, hfb]
    · simpa [mergeStages] using build_fallback_sections_ne_nil (pyStrip tf) sd calcs
  · exact ⟨_, hfb⟩

/-- Witness for C3 at a concrete input (every response text unparseable). -/
theorem claim3_witness :
    (∃ m, (generate_claim_multistage env0 sd0 calcs0 (some "k") false).1 = .ok (some m)
        ∧ m.sections ≠ []) ∧
    (∃ p, _run_simple_fallback env0.parse2 env0.fallbackResp sd0 calcs0 = .ok p) :=
  claim3_degrade_dont_drop env0 sd0 calcs0 "k" false (by decide) (by decide)
    "" rfl rfl "" rfl rfl

-- ── Concrete successful-run inputs (C2, C7, C8, C9) ──

/-- A sample appendix record. -/
def app1 : Appendix := { number := 1, description := "תלושי שכר", reference_text := "מצורפים כנספח 1" }

/-- A Drafter payload declaring one section (for a claim that is not in
`sd0`'s selected set) and the same appendix the Analyst also detected. -/
def payloadB : Payload :=
  { gender_form := some "male"
    sections := some [{ header := "דמי הבראה", paragraphs := ["פסקה כלשהי"] }]
    appendices := some [app1]
    calculations := some []
    legal_citations := some []
    summary_total := some 99999 }

/-- An Analyst payload detecting the same appendix the Drafter declared. -/
def stage1B : Stage1 :=
  { sections_required := some []
    applicable_laws := some []
    appendices_detected := some [app1]
    flags := some [] }

/-- An environment in which both stages decode successfully and only one
second of budget remains after the Drafter. -/
def envOkB : PipelineEnv :=
  { parse1 := fun _ => some stage1B
    parse2 := fun _ => some payloadB
    stage1Resp := .ok "a"
    stage2Resp := .ok "b"
    fallbackResp := .ok "c"
    elapsed1 := 149
    totalElapsed := 149 }

/-- `envOkB` with the Analyst's remote call failing outright. -/
def envAnalystFail : PipelineEnv :=
  { envOkB with stage1Resp := .error () }

/-- The sections of a non-null merged outcome. -/
def sectionsOf : Except PipeError (Option MergedResult) → Option (List Section)
  | .ok (some m) => some m.sections
  | _ => none

/-- The appendix list of a non-null merged outcome. -/
def appendicesOf : Except PipeError (Option MergedResult) → Option (List Appendix)
  | .ok (some m) => some m.appendices
  | _ => none

/-- The `stages_completed` field of a non-null merged outcome. -/
def stagesCompletedOf : Except PipeError (Option MergedResult) → Option Nat
  | .ok (some m) => some m.stage_timing.stages_completed
  | _ => none

/-- The `verification_notes` field of a non-null merged outcome. -/
def verificationNotesOf : Except PipeError (Option MergedResult) → Option (List String)
  | .ok (some m) => some m.verification_notes
  | _ => none

-- ── C2 ──

/-- Counterexample to C2: a successful run on a request that selects only the
severance claim, whose final draft nevertheless contains a section for the
recuperation claim — a claim identifier absent from the selected set.  The
merge step drops nothing. -/
theorem claim2_counterexample :
    sectionsOf (generate_claim_multistage envOkB sd0 calcs0 (some "key") false).1 =
      some [{ header := "דמי הבראה", paragraphs := ["פסקה כלשהי"] }] ∧
    "דמי הבראה" ∈ claimNames ∧ "דמי הבראה" ∉ selectedClaims sd0 := by
  refine ⟨rfl, by decide, by decide⟩

/-- Claim C2 as amended: the merge step performs no filtering at all — on a
successful Drafter decode the final draft's sections are exactly the payload's
sections, whether or not they correspond to selected claims. -/
theorem claim2_amended (env : PipelineEnv) (sd : StructuredData) (calcs : Calculations)
    (k : String) (hs : Bool) (hk : k ≠ "") (hB : env.elapsed1 ≤ HARD_TIMEOUT)
    (p2 : Payload) (h2 : _run_stage2_streaming env.parse2 env.stage2Resp = .ok p2) :
    ∃ m, (generate_claim_multistage env sd calcs (some k) hs).1 = .ok (some m)
      ∧ m.sections = p2.sections.getD [] := by
  rw [run_stage2_ok env sd calcs k hs hk (by omega) p2 h2]
  exact ⟨_, rfl, rfl⟩

/-- Witness for the amended C2 at a concrete input. -/
theorem claim2_witness :
    ∃ m, (generate_claim_multistage envOkB sd0 calcs0 (some "key") false).1 = .ok (some m)
      ∧ m.sections = payloadB.sections.getD [] :=
  claim2_amended envOkB sd0 calcs0 "key" false (by decide) (by decide) payloadB (by rfl)

-- ── C7 ──

/-- Counterexample to C7: a successful run with one second of budget left
after the Drafter (below any positive Verifier threshold) still returns
`verification_notes = []` — no skip annotation is ever recorded (there is no
Verifier stage in the code; `stages_completed` is the constant 2). -/
theorem claim7_counterexample :
    verificationNotesOf (generate_claim_multistage envOkB sd0 calcs0 (some "key") false).1 =
      some [] ∧
    stagesCompletedOf (generate_claim_multistage envOkB sd0 calcs0 (some "key") false).1 =
      some 2 := by
  exact ⟨rfl, rfl⟩

/-- Claim C7 as amended: there is no Verifier stage; on every successful run,
whatever the remaining budget, `verification_notes` is empty (so it never
contains a skip annotation) and `stages_completed` equals 2. -/
theorem claim7_amended (env : PipelineEnv) (sd : StructuredData) (calcs : Calculations)
    (api_key : Option String) (hs : Bool) (m : MergedResult)
    (h : (generate_claim_multistage env sd calcs api_key hs).1 = .ok (some m)) :
    m.verification_notes = [] ∧ m.stage_timing.stages_completed = 2 := by
  obtain ⟨p2, rfl⟩ := run_ok_some_shape env sd calcs api_key hs m h
  exact ⟨rfl, rfl⟩

/-- Witness for the amended C7 at a concrete input. -/
theorem claim7_witness :
    (mergeStages payloadB stage1B sd0 calcs0 149).verification_notes = [] ∧
    (mergeStages payloadB stage1B sd0 calcs0 149).stage_timing.stages_completed = 2 :=
  claim7_amended envOkB sd0 calcs0 (some "key") false _ (by rfl)

-- ── C8 ──

/-- Counterexample to C8's `stagesCompleted` clause: with the Analyst's remote
call failing and the Drafter succeeding, the pipeline does return a non-null
draft, but `stages_completed` is 2 — exactly the same value as in the
identical run whose Analyst succeeded, so the value does not reflect the
Analyst's omission. -/
theorem claim8_counterexample :
    stagesCompletedOf (generate_claim_multistage envAnalystFail sd0 calcs0 (some "key") false).1 =
      some 2 ∧
    stagesCompletedOf (generate_claim_multistage envOkB sd0 calcs0 (some "key") false).1 =
      some 2 := by
  exact ⟨rfl, rfl⟩

/-- Claim C8 as amended: Analyst failure is non-fatal — the pipeline
substitutes the empty analysis, continues, and returns a non-null draft when
the Drafter succeeds; `stages_completed` is the constant 2 and does not
reflect the Analyst's omission. -/
theorem claim8_amended (env : PipelineEnv) (sd : StructuredData) (calcs : Calculations)
    (k : String) (hs : Bool) (hk : k ≠ "") (hB : env.elapsed1 ≤ HARD_TIMEOUT)
    (hF : _run_stage1 env.parse1 env.stage1Resp = .error ())
    (p2 : Payload) (h2 : _run_stage2_streaming env.parse2 env.stage2Resp = .ok p2) :
    (generate_claim_multistage env sd calcs (some k) hs).1 =
      .ok (some (mergeStages p2 emptyStage1 sd calcs env.totalElapsed)) ∧
    (mergeStages p2 emptyStage1 sd calcs env.totalElapsed).stage_timing.stages_completed = 2 := by
  have h1 : stage1Res env = emptyStage1 := by
    unfold stage1Res
    rw [hF]
  refine ⟨?_, rfl⟩
  rw [run_stage2_ok env sd calcs k hs hk (by omega) p2 h2, h1]

/-- Witness for the amended C8 at a concrete input. -/
theorem claim8_witness :
    (generate_claim_multistage envAnalystFail sd0 calcs0 (some "key") false).1 =
      .ok (some (mergeStages payloadB emptyStage1 sd0 calcs0 149)) ∧
    (mergeStages payloadB emptyStage1 sd0 calcs0 149).stage_timing.stages_completed = 2 :=
  claim8_amended envAnalystFail sd0 calcs0 "key" false (by decide) (by decide)
    rfl payloadB (by rfl)

-- ── C9 ──

/-- Counterexample to C9: in a successful run where the Drafter declared the
same appendix the Analyst detected, the merged appendix list contains that
appendix twice — the merge concatenates without any already-present check. -/
theorem claim9_counterexample :
    appendicesOf (generate_claim_multistage envOkB sd0 calcs0 (some "key") false).1 =
      some [app1, app1] ∧
    [app1, app1].count app1 = 2 := by
  exact ⟨rfl, by decide⟩

/-- Claim C9 as amended: the merged appendix list is the plain concatenation
of the Drafter payload's appendices with the Analyst's detected appendices —
no deduplication of already-present entries is performed. -/
theorem claim9_amended (env : PipelineEnv) (sd : StructuredData) (calcs : Calculations)
    (k : String) (hs : Bool) (hk : k ≠ "") (hB : env.elapsed1 ≤ HARD_TIMEOUT)
    (p2 : Payload) (h2 : _run_stage2_streaming env.parse2 env.stage2Resp = .ok p2) :
    ∃ m, (generate_claim_multistage env sd calcs (some k) hs).1 = .ok (some m)
      ∧ m.appendices = p2.appendices.getD []
          ++ (stage1Res env).appendices_detected.getD [] := by
  rw [run_stage2_ok env sd calcs k hs hk (by omega) p2 h2]
  exact ⟨_, rfl, rfl⟩

/-- Witness for the amended C9 at a concrete input. -/
theorem claim9_witness :
    ∃ m, (generate_claim_multistage envOkB sd0 calcs0 (some "key") false).1 = .ok (some m)
      ∧ m.appendices = payloadB.appendices.getD []
          ++ (stage1Res envOkB).appendices_detected.getD [] :=
  claim9_amended envOkB sd0 calcs0 "key" false (by decide) (by decide) payloadB (by rfl)

end LaborLawBot

namespace LaborLawBot

-- ── C1 ──

/-- Claim C1: authoritative amounts.  (1) Every merged result the orchestrator
returns carries `summary_total` taken from the authoritative calculations map,
never from a stage payload; (2) the final document's line list decomposes into
a payload-derived body followed by a tail that is a function of the form data
and the authoritative calculations only; (3) that tail renders one summary
line per entry of the authoritative claims map, with the map's exact amount. -/
theorem claim1_authoritative_amounts :
    (∀ (env : PipelineEnv) (sd : StructuredData) (calcs : Calculations)
        (api_key : Option String) (hs : Bool) (m : MergedResult),
      (generate_claim_multistage env sd calcs api_key hs).1 = .ok (some m) →
        m.summary_total = calcs.total.getD 0) ∧
    (∀ (ai : Payload) (data : StructuredData) (calcs : Calculations),
      claimTextLines ai data calcs = bodyLines ai ++ summaryTailLines data calcs) ∧
    (∀ (data : StructuredData) (calcs : Calculations) (k : String) (c : ClaimCalc),
      (k, c) ∈ calcs.claims → claimLine c ∈ summaryTailLines data calcs) := by
  refine ⟨?_, ?_, ?_⟩
  · intro env sd calcs api_key hs m h
    obtain ⟨p2, rfl⟩ := run_ok_some_shape env sd calcs api_key hs m h
    rfl
  · intro ai data calcs
    unfold claimTextLines bodyLines summaryTailLines
    simp [List.append_assoc]
  · intro data calcs k c hmem
    unfold summaryTailLines
    rw [if_pos (by exact fun h => (List.ne_nil_of_mem hmem) h)]
    simp only [List.append_assoc, List.mem_append, List.mem_map]
    exact Or.inr (Or.inl ⟨(k, c), hmem, rfl⟩)

/-- Witness for C1 at concrete inputs. -/
theorem claim1_witness :
    ((mergeStages payloadB stage1B sd0 calcs0 149).summary_total = calcs0.total.getD 0) ∧
    (claimTextLines payloadB sd0 calcs0 = bodyLines payloadB ++ summaryTailLines sd0 calcs0) ∧
    (claimLine { name := "פיצויי פיטורים", amount := 25000, formula := none }
        ∈ summaryTailLines sd0 calcs0) :=
  ⟨claim1_authoritative_amounts.1 envOkB sd0 calcs0 (some "key") false _ (by rfl),
   claim1_authoritative_amounts.2.1 payloadB sd0 calcs0,
   claim1_authoritative_amounts.2.2 sd0 calcs0 "severance" _ (by decide)⟩

-- ── C5 ──

/-- Claim C5: the decoder tries exactly the four strategies in order — direct
parse, fence-stripped parse, brace-depth-matched substring, first-to-last
brace substring — returning the first success, and returns the failure value
`none` if and only if all four strategies fail.  (The hypothesis records that
the underlying parser rejects the empty string, as Python's `json.loads`
does; the source short-circuits empty input before strategy 1.) -/
theorem claim5_decoder_strategies {α : Type} (parse : String → Option α)
    (hempty : parse "" = none) (text : String) :
    (_safe_parse_json parse text =
      [strat1 parse text, strat2 parse text, strat3 parse text,
        strat4 parse text].findSome? id) ∧
    (_safe_parse_json parse text = none ↔
      strat1 parse text = none ∧ strat2 parse text = none ∧
      strat3 parse text = none ∧ strat4 parse text = none) := by
  have key : _safe_parse_json parse text =
      [strat1 parse text, strat2 parse text, strat3 parse text,
        strat4 parse text].findSome? id := by
    by_cases ht : text = ""
    · subst ht
      have e1 : strat1 parse "" = none := hempty
      have e2 : strat2 parse "" = (none : Option α) := rfl
      have e3 : strat3 parse "" = (none : Option α) := rfl
      have e4 : strat4 parse "" = (none : Option α) := rfl
      rw [show _safe_parse_json parse "" = none from rfl, e1, e2, e3, e4]
      rfl
    · unfold _safe_parse_json
      rw [if_neg ht]
      cases h1 : strat1 parse text with
      | some v => rfl
      | none =>
        cases h2 : strat2 parse text with
        | some v => rfl
        | none =>
          cases h3 : strat3 parse text with
          | some v => rfl
          | none => cases h4 : strat4 parse text <;> rfl
  refine ⟨key, ?_⟩
  rw [key]
  cases h1 : strat1 parse text with
  | some v => simp [List.findSome?, h1]
  | none =>
    cases h2 : strat2 parse text with
    | some v => simp [List.findSome?, h2]
    | none =>
      cases h3 : strat3 parse text with
      | some v => simp [List.findSome?, h3]
      | none => cases h4 : strat4 parse text <;> simp [List.findSome?, h4]

/-- A concrete parser accepting exactly one string, for the C5 witness. -/
def parse0 : String → Option Unit :=
  fun s => if s = "OK" then some () else none

/-- Witness for C5 at a concrete parser and input. -/
theorem claim5_witness :
    parse0 "" = none ∧
    ((_safe_parse_json parse0 "t" =
      [strat1 parse0 "t", strat2 parse0 "t", strat3 parse0 "t",
        strat4 parse0 "t"].findSome? id) ∧
     (_safe_parse_json parse0 "t" = none ↔
      strat1 parse0 "t" = none ∧ strat2 parse0 "t" = none ∧
      strat3 parse0 "t" = none ∧ strat4 parse0 "t" = none)) :=
  ⟨rfl, claim5_decoder_strategies parse0 rfl "t"⟩

end LaborLawBot

namespace LaborLawBot

-- ── C6: lemmas about the gender normalizer ──

/-- No element of a `splitOnP` chunk satisfies the splitting predicate. -/
theorem splitOnP_sep_not_mem {α : Type} (p : α → Bool) (xs : List α) :
    ∀ l ∈ xs.splitOnP p, ∀ a ∈ l, p a = false := by
  induction xs with
  | nil =>
    intro l hl a ha
    rw [List.splitOnP_nil] at hl
    simp only [List.mem_singleton] at hl
    subst hl
    simp at ha
  | cons x xs ih =>
    intro l hl a ha
    rw [List.splitOnP_cons] at hl
    by_cases hx : p x = true
    · rw [if_pos hx] at hl
      rcases List.mem_cons.mp hl with rfl | hl2
      · simp at ha
      · exact ih l hl2 a ha
    · rw [if_neg hx] at hl
      obtain ⟨h0, t0, he⟩ : ∃ h0 t0, xs.splitOnP p = h0 :: t0 := by
        cases hsp : xs.splitOnP p with
        | nil => exact absurd hsp (List.splitOnP_ne_nil p xs)
        | cons h0 t0 => exact ⟨h0, t0, rfl⟩
      rw [he, List.modifyHead_cons] at hl
      rcases List.mem_cons.mp hl with rfl | hl2
      · rcases List.mem_cons.mp ha with rfl | ha2
        · simpa using hx
        · exact ih h0 (by rw [he]; exact List.mem_cons_self h0 t0) a ha2
      · exact ih l (by rw [he]; exact List.mem_cons_of_mem h0 hl2) a ha

/-- The separator does not occur inside any chunk of `splitOn`. -/
theorem mem_splitOn_sep_not_mem {α : Type} [DecidableEq α] (sep : α) (xs : List α) :
    ∀ l ∈ List.splitOn sep xs, sep ∉ l := by
  intro l hl hmem
  have h := splitOnP_sep_not_mem (· == sep) xs l (by simpa [List.splitOn] using hl) sep hmem
  simp at h

/-- No male or female form in the table is itself an ambiguous key. -/
theorem gender_table_forms_not_keys :
    ∀ e ∈ GENDER_TABLE,
      GENDER_TABLE.find? (fun e2 => e2.1.toList == e.2.1.toList) = none ∧
      GENDER_TABLE.find? (fun e2 => e2.1.toList == e.2.2.toList) = none := by
  decide

/-- No male or female form in the table contains a space. -/
theorem gender_table_forms_no_space :
    ∀ e ∈ GENDER_TABLE, ' ' ∉ e.2.1.toList ∧ ' ' ∉ e.2.2.toList := by
  decide

/-- Token-level idempotence of the substitution. -/
theorem fixWord_idem (g : String) (w : List Char) :
    fixWord g (fixWord g w) = fixWord g w := by
  cases hf : GENDER_TABLE.find? (fun e => e.1.toList == w) with
  | none =>
    have h1 : fixWord g w = w := by
      unfold fixWord
      rw [hf]
    rw [h1]
    exact h1
  | some e =>
    have hkeys := gender_table_forms_not_keys e (List.mem_of_find?_eq_some hf)
    have h1 : fixWord g w = (if g = "female" then e.2.2 else e.2.1).toList := by
      unfold fixWord
      rw [hf]
    rw [h1]
    by_cases hg : g = "female"
    · rw [if_pos hg]
      unfold fixWord
      rw [hkeys.2]
    · rw [if_neg hg]
      unfold fixWord
      rw [hkeys.1]

/-- The substitution introduces no space into a space-free token. -/
theorem fixWord_no_space (g : String) (w : List Char) (hw : ' ' ∉ w) :
    ' ' ∉ fixWord g w := by
  cases hf : GENDER_TABLE.find? (fun e => e.1.toList == w) with
  | none =>
    rw [show fixWord g w = w from by unfold fixWord; rw [hf]]
    exact hw
  | some e =>
    rw [show fixWord g w = (if g = "female" then e.2.2 else e.2.1).toList from by
      unfold fixWord; rw [hf]]
    have hsp := gender_table_forms_no_space e (List.mem_of_find?_eq_some hf)
    by_cases hg : g = "female"
    · rw [if_pos hg]
      exact hsp.2
    · rw [if_neg hg]
      exact hsp.1

/-- Idempotence of the text-level normalizer. -/
theorem fix_gender_idem (text g : String) :
    fix_gender (fix_gender text g) g = fix_gender text g := by
  unfold fix_gender
  have hsplit :
      List.splitOn ' ' ([' '].intercalate ((text.toList.splitOn ' ').map (fixWord g))) =
        (text.toList.splitOn ' ').map (fixWord g) := by
    apply List.splitOn_intercalate
    · intro l hl
      obtain ⟨w, hw, rfl⟩ := List.mem_map.mp hl
      exact fixWord_no_space g w (mem_splitOn_sep_not_mem ' ' text.toList w hw)
    · intro hnil
      rw [List.map_eq_nil_iff] at hnil
      exact List.splitOnP_ne_nil _ text.toList (by simpa [List.splitOn] using hnil)
  rw [show (String.mk ([' '].intercalate ((text.toList.splitOn ' ').map (fixWord g)))).toList
      = [' '].intercalate ((text.toList.splitOn ' ').map (fixWord g)) from rfl]
  rw [hsplit, List.map_map]
  congr 1
  congr 1
  exact List.map_congr_left (fun w _ => fixWord_idem g w)

/-- Conservativeness of the text-level normalizer: text whose tokens are all
outside the substitution table is returned unchanged. -/
theorem fix_gender_conservative (text g : String)
    (h : ∀ w ∈ text.toList.splitOn ' ',
      GENDER_TABLE.find? (fun e => e.1.toList == w) = none) :
    fix_gender text g = text := by
  unfold fix_gender
  have hmap : (text.toList.splitOn ' ').map (fixWord g) = text.toList.splitOn ' ' := by
    have hcong : ∀ w ∈ text.toList.splitOn ' ', fixWord g w = id w := by
      intro w hw
      show fixWord g w = w
      unfold fixWord
      rw [h w hw]
    rw [List.map_congr_left hcong, List.map_id]
  rw [hmap, List.intercalate_splitOn]
  rfl

/-- Paragraph-level idempotence of the normalization pass. -/
theorem applyGenderPara_idem (g : String) (p : DocPara) :
    applyGenderPara g (applyGenderPara g p) = applyGenderPara g p := by
  unfold applyGenderPara
  simp [List.map_map, Function.comp_def, fix_gender_idem]

/-- Document-level idempotence of the normalization pass. -/
theorem apply_gender_to_doc_idem (doc : Doc) (g : String) :
    _apply_gender_to_doc (_apply_gender_to_doc doc g) g = _apply_gender_to_doc doc g := by
  unfold _apply_gender_to_doc
  simp [List.map_map, Function.comp_def, applyGenderPara_idem]

/-- Claim C6: the grammatical normalizer is idempotent
(`normalize(normalize(text,g),g) = normalize(text,g)` for all text and gender
markers), conservative (text containing no gender-ambiguous token is returned
unchanged), and the single post-process pass over every body paragraph and
every table-cell paragraph of the document is therefore itself idempotent. -/
theorem claim6_normalizer :
    (∀ (text g : String), fix_gender (fix_gender text g) g = fix_gender text g) ∧
    (∀ (text g : String),
      (∀ w ∈ text.toList.splitOn ' ',
        GENDER_TABLE.find? (fun e => e.1.toList == w) = none) →
      fix_gender text g = text) ∧
    (∀ (doc : Doc) (g : String),
      _apply_gender_to_doc (_apply_gender_to_doc doc g) g = _apply_gender_to_doc doc g) :=
  ⟨fix_gender_idem, fix_gender_conservative, apply_gender_to_doc_idem⟩

/-- A one-paragraph document with one ambiguous token, for the C6 witness. -/
def doc0 : Doc :=
  { paragraphs := [{ runs := [{ text := "התובע/ת" }] }]
    tables := [] }

/-- Witness for C6 at concrete inputs: idempotence on an ambiguous text,
conservativeness on an unambiguous text, document-pass idempotence. -/
theorem claim6_witness :
    fix_gender (fix_gender "התובע/ת טוען/ת כי" "female") "female"
      = fix_gender "התובע/ת טוען/ת כי" "female" ∧
    fix_gender "שלום עולם" "male" = "שלום עולם" ∧
    _apply_gender_to_doc (_apply_gender_to_doc doc0 "female") "female"
      = _apply_gender_to_doc doc0 "female" :=
  ⟨claim6_normalizer.1 "התובע/ת טוען/ת כי" "female",
   claim6_normalizer.2.1 "שלום עולם" "male" (by decide),
   claim6_normalizer.2.2 doc0 "female"⟩

end LaborLawBot
